import Mathlib

/-!
Shallow embedding of the OpenGL renderer in `src/render/opengl/mod.rs`
(`Display` and its `base::Display` trait implementation), together with the
parts of the `base` / `asi` collaborator crates its behaviour depends on,
modelled from the specification where their sources are absent.

Rust `f32` values are modelled as rationals (`ℚ`), `u32`/`u16` indices and
sizes as `Nat`, vectors as Lean lists, and panics as `Except.error`.
-/

namespace Awi

/-- Column vector of four scalars (one column of a 4x4 `f32` matrix, or an
RGBA colour `[f32; 4]`). -/
structure Vec4 where
  x : ℚ
  y : ℚ
  z : ℚ
  w : ℚ
  deriving DecidableEq, Repr, Inhabited

/-- Modelled from the spec: the `base` crate 4x4 transform matrix, stored as
four columns; only equality and the action on the homogeneous origin
`(0,0,0,1)` (the translation column `c3`) are observed by this renderer. -/
structure Matrix where
  c0 : Vec4
  c1 : Vec4
  c2 : Vec4
  c3 : Vec4
  deriving DecidableEq, Repr, Inhabited

/-- Modelled from the spec: the `base` crate 3-component vector type
(`Vector`), used for the camera position `xyz` and shape origins. -/
structure Vector3 where
  x : ℚ
  y : ℚ
  z : ℚ
  deriving DecidableEq, Repr, Inhabited

/-- Modelled from the spec: an `asi` GPU buffer after its one-time upload
(`Buffer::new` + `Buffer::set`); buffer contents are never mutated after
creation, so the Rust `Rc`-shared handle is modelled by its value. -/
structure Buffer where
  data : List ℚ
  deriving DecidableEq, Repr, Inhabited

/-- Modelled from the spec: the GPU-side image object behind an
`asi::Texture` (width, height, RGBA byte pixels of the last upload). -/
structure GLTexImage where
  w : Nat
  h : Nat
  pixels : List Nat
  deriving DecidableEq, Repr, Inhabited

/-- Modelled from the spec: the state of the `OpenGL` context that this
renderer mutates — the viewport and the GL texture objects, addressed by
their id.  `asi::Texture` handles are `Rc`-shared clones of one GL object,
so a texture is modelled as a `Nat` id into `texImages`, which makes
"replace content in place, every holder of the handle sees it" literal. -/
structure OpenGLCtx where
  viewport : Nat × Nat
  texImages : List GLTexImage
  deriving DecidableEq, Repr, Inhabited

/-- `struct ShapeData` (`mod.rs` lines 87-97): one shape instance.  The
`texture` field holds the GL texture id of the `asi::Texture` clone. -/
structure ShapeData where
  style : Nat
  buffers : Option Buffer × Option Buffer
  has_fog : Bool
  alpha : Option ℚ
  color : Option Vec4
  transform : Matrix
  texture : Option Nat
  vertex_buffer : Buffer
  fans : List (Nat × Nat)
  deriving DecidableEq, Repr, Inhabited

/-- `struct ModelData`: uploaded vertex buffer, its vertex count
(`vertices.len() / 4`) and triangle-fan ranges. -/
structure ModelData where
  vertex_buffer : Buffer
  vertex_count : Nat
  fans : List (Nat × Nat)
  deriving DecidableEq, Repr, Inhabited

/-- `struct TexcoordsData`: uploaded texture-coordinate buffer and its
vertex count. -/
structure TexcoordsData where
  vertex_buffer : Buffer
  vertex_count : Nat
  deriving DecidableEq, Repr, Inhabited

/-- `struct GradientData`: uploaded per-vertex colour buffer and its vertex
count. -/
structure GradientData where
  vertex_buffer : Buffer
  vertex_count : Nat
  deriving DecidableEq, Repr, Inhabited

/-- `struct TextureData`: table entry owning an `asi::Texture`, modelled by
the id of its GL texture object. -/
structure TextureData where
  t : Nat
  deriving DecidableEq, Repr, Inhabited

/-- Modelled from the spec: the `base::Model` caller handle — a dense index
into the model table (`Model(index)`). -/
structure Model where
  idx : Nat
  deriving DecidableEq, Repr, Inhabited

/-- Modelled from the spec: the `base::Texture` caller handle
`Texture(index, width, height)` — the table index plus the width and height
recorded at creation time. -/
structure Texture where
  idx : Nat
  w : Nat
  h : Nat
  deriving DecidableEq, Repr, Inhabited

/-- Modelled from the spec: the `base::TexCoords` caller handle
(`TexCoords(index)`). -/
structure TexCoords where
  idx : Nat
  deriving DecidableEq, Repr, Inhabited

/-- Modelled from the spec: the `base::Gradient` caller handle
(`Gradient(index)`). -/
structure Gradient where
  idx : Nat
  deriving DecidableEq, Repr, Inhabited

/-- Modelled from the spec: `base::ShapeHandle` — the index of a shape in
its draw list, tagged with the list it lives in. -/
inductive ShapeHandle where
  | Opaque (i : Nat)
  | Alpha (i : Nat)
  deriving DecidableEq, Repr, Inhabited

/-- Modelled from the spec: the opaque `base::Shape` caller handle wrapping
a `ShapeHandle` (`base::new_shape` / `base::get_shape`). -/
structure Shape where
  handle : ShapeHandle
  deriving DecidableEq, Repr, Inhabited

/-- Modelled from the spec: `base::new_shape`. -/
def new_shape (h : ShapeHandle) : Shape := ⟨h⟩

/-- Modelled from the spec: `base::get_shape`. -/
def get_shape (s : Shape) : ShapeHandle := s.handle

/-- Modelled from the spec: the projection matrix built by
`base::projection(ar, 0.5 * PI)`; its source is not in the repository, so it
is represented symbolically by the one argument that varies — the aspect
ratio (the vertical field of view is the fixed constant `0.5 * PI` at both
call sites). -/
inductive Projection where
  | perspective (ar : ℚ)
  deriving DecidableEq, Repr, Inhabited

/-- `const STYLE_GRADIENT` (`mod.rs` line 42). -/
def STYLE_GRADIENT : Nat := 0

/-- `const STYLE_TEXTURE`. -/
def STYLE_TEXTURE : Nat := 1

/-- `const STYLE_FADED`. -/
def STYLE_FADED : Nat := 2

/-- `const STYLE_TINTED`. -/
def STYLE_TINTED : Nat := 3

/-- `const STYLE_SOLID`. -/
def STYLE_SOLID : Nat := 4

/-- `const STYLE_COMPLEX`. -/
def STYLE_COMPLEX : Nat := 5

/-- `struct Style`, reduced to what `draw_shape` observes: whether each
optional attribute/uniform location was declared by the style's shader
(`VertexData::is_none` / `UniformData::is_none` being false).  The
locations that every shader declares (`models_tfm`, `has_fog`, `position`)
carry no flag. -/
structure Style where
  texpos : Bool
  acolor : Bool
  alpha : Bool
  color : Bool
  deriving DecidableEq, Repr, Inhabited

/-- Modelled from the spec: which uniform/attribute locations each of the
six shader programs declares.  The GLSL sources are not in the repository;
the table follows the spec (section 3 `Style`, section 4.3): gradient has a
per-vertex colour attribute, texture a texture-coordinate attribute, faded
adds an alpha uniform to texture, tinted adds a colour uniform to texture,
solid has only the colour uniform, complex has texture-coordinate and
per-vertex colour attributes.  The index order matches the `styles` array
built in `new()` (gradient, texture, faded, tinted, solid, complex). -/
def styles : Nat → Style
  | 0 => { texpos := false, acolor := true, alpha := false, color := false }
  | 1 => { texpos := true, acolor := false, alpha := false, color := false }
  | 2 => { texpos := true, acolor := false, alpha := true, color := false }
  | 3 => { texpos := true, acolor := false, alpha := false, color := true }
  | 4 => { texpos := false, acolor := false, alpha := false, color := true }
  | _ => { texpos := true, acolor := true, alpha := false, color := false }

/-- `struct Display` (`mod.rs` lines 128-146): the renderer state.  The
fixed `styles` array is the global table `styles` above; the `window` and
GL plumbing are reduced to the context state the claims observe. -/
structure Display where
  context : OpenGLCtx
  color : ℚ × ℚ × ℚ
  opaque_ind : List Nat
  alpha_ind : List Nat
  opaque_vec : List ShapeData
  alpha_vec : List ShapeData
  gui_vec : List ShapeData
  models : List ModelData
  texcoords : List TexcoordsData
  gradients : List GradientData
  textures : List TextureData
  xyz : Vector3
  rotate_xyz : Vector3
  ar : ℚ
  projection : Projection
  deriving DecidableEq, Repr, Inhabited

/-- Rust slice indexing `table[i]`, which panics when out of range. -/
def indexGet (l : List α) (i : Nat) : Except String α :=
  match l[i]? with
  | some a => Except.ok a
  | none => Except.error "index out of bounds"

/-- Rust `Option::unwrap`, which panics on `None`. -/
def expectSome (x : Option α) (msg : String) : Except String α :=
  match x with
  | some a => Except.ok a
  | none => Except.error msg

/-- `impl base::Point for ShapeData` (`mod.rs` lines 99-104): the shape's
world-space origin `transform * (vector!(0,0,0), 1)`.  The matrix action on
the homogeneous origin is the translation column (modelled from the spec;
the `base` matrix multiplication is not in the repository). -/
def point (s : ShapeData) : Vector3 :=
  ⟨s.transform.c3.x, s.transform.c3.y, s.transform.c3.z⟩

/-- Squared Euclidean distance between two points.  Comparing squared
distances orders points exactly as comparing Euclidean distances does, and
stays inside `ℚ`. -/
def distSq (a b : Vector3) : ℚ :=
  (a.x - b.x) ^ 2 + (a.y - b.y) ^ 2 + (a.z - b.z) ^ 2

/-- Comparison used by the depth sort: index `a` precedes index `b` when
its shape's origin is nearer to (`nr = true`) or farther from (`nr = false`)
the camera `position`. -/
def zsortLe (shapes : List ShapeData) (nr : Bool) (position : Vector3)
    (a b : Nat) : Bool :=
  let da := distSq position (point (shapes.getD a default))
  let db := distSq position (point (shapes.getD b default))
  if nr then decide (da ≤ db) else decide (db ≤ da)

/-- Insert `x` into a sorted list, after every element `y` with `le y x` —
so an element inserted later is placed after earlier ties (stability). -/
def insertSorted (le : Nat → Nat → Bool) (x : Nat) : List Nat → List Nat
  | [] => [x]
  | y :: ys => if le y x then y :: insertSorted le x ys else x :: y :: ys

/-- Stable insertion sort over index lists. -/
def stableSort (le : Nat → Nat → Bool) (l : List Nat) : List Nat :=
  l.foldl (fun acc x => insertSorted le x acc) []

/-- Modelled from the spec: `base::zsort` (the `base` crate is not in the
repository) — a stable sort of the draw-order index list `ind`, keyed by
Euclidean distance from the camera `position` to each indexed shape's
world-space origin, nearest first when `nr` is true and farthest first
otherwise. -/
def zsort (ind : List Nat) (shapes : List ShapeData) (nr : Bool)
    (position : Vector3) : List Nat :=
  stableSort (zsortLe shapes nr position) ind

/-- GL calls issued while drawing, in issue order (the observable trace of
`update` / `draw_shape`). -/
inductive GLCmd where
  | camera_enable
  | enable_depth
  | disable_depth
  | set_mat4 (m : Matrix)
  | texpos_set (b : Buffer)
  | bind_texture (t : Nat)
  | acolor_set (b : Buffer)
  | alpha_set (a : ℚ)
  | color_set (c : Vec4)
  | fog_set (f : Bool)
  | position_set (b : Buffer)
  | draw_fan (s e : Nat)
  deriving DecidableEq, Repr, Inhabited

/-- Commands of the `!style.texpos.is_none()` branch of `draw_shape`:
unwrap `shape.buffers[0]`, then unwrap and bind `shape.texture`. -/
def texposCmds (style : Style) (shape : ShapeData) :
    Except String (List GLCmd) :=
  if style.texpos then
    match shape.buffers.1, shape.texture with
    | some b, some t => Except.ok [GLCmd.texpos_set b, GLCmd.bind_texture t]
    | none, _ => Except.error "texpos buffer unwrap on None"
    | some _, none => Except.error "texture unwrap on None"
  else Except.ok []

/-- Commands of the `!style.acolor.is_none()` branch of `draw_shape`
(it reads `shape.buffers[0]`, the same slot as `texpos`). -/
def acolorCmds (style : Style) (shape : ShapeData) :
    Except String (List GLCmd) :=
  if style.acolor then
    match shape.buffers.1 with
    | some b => Except.ok [GLCmd.acolor_set b]
    | none => Except.error "acolor buffer unwrap on None"
  else Except.ok []

/-- Commands of the `!style.alpha.is_none()` branch of `draw_shape`. -/
def alphaCmds (style : Style) (shape : ShapeData) :
    Except String (List GLCmd) :=
  if style.alpha then
    match shape.alpha with
    | some a => Except.ok [GLCmd.alpha_set a]
    | none => Except.error "alpha unwrap on None"
  else Except.ok []

/-- Commands of the `!style.color.is_none()` branch of `draw_shape`. -/
def colorCmds (style : Style) (shape : ShapeData) :
    Except String (List GLCmd) :=
  if style.color then
    match shape.color with
    | some c => Except.ok [GLCmd.color_set c]
    | none => Except.error "color unwrap on None"
  else Except.ok []

/-- One `draw_arrays(TriangleFan, start..end)` call per fan range. -/
def fanCmds (fans : List (Nat × Nat)) : List GLCmd :=
  fans.map (fun f => GLCmd.draw_fan f.1 f.2)

/-- `fn draw_shape(style, shape)` (`mod.rs` lines 667-702): set the
transform uniform unconditionally; then, for each optional location the
style declares, unwrap the corresponding shape field and issue its command;
then set fog, bind the position attribute and issue one triangle-fan call
per fan range.  An `unwrap` of a missing field is a panic
(`Except.error`). -/
def draw_shape (style : Style) (shape : ShapeData) :
    Except String (List GLCmd) := do
  let tp ← texposCmds style shape
  let ac ← acolorCmds style shape
  let al ← alphaCmds style shape
  let co ← colorCmds style shape
  pure ([GLCmd.set_mat4 shape.transform] ++ tp ++ ac ++ al ++ co ++
    [GLCmd.fog_set shape.has_fog, GLCmd.position_set shape.vertex_buffer] ++
    fanCmds shape.fans)

/-- Draw every shape of a backing vector in storage order, as the three
`for shape in as_mut(&self...).iter()` loops of `update` do. -/
def drawList : List ShapeData → Except String (List GLCmd)
  | [] => Except.ok []
  | s :: rest => do
    let c ← draw_shape (styles s.style) s
    let r ← drawList rest
    pure (c ++ r)

/-- `fn update(&mut self)` (`mod.rs` lines 262-294): enable the camera
uniform on every style and depth testing, sort `opaque_ind` nearest-first
and `alpha_ind` farthest-first in place, draw the raw `opaque_vec`, the raw
`alpha_vec`, disable depth testing and draw the raw `gui_vec`.  Returns the
state after the in-place sorts together with the GL trace of the frame. -/
def update (d : Display) : Display × Except String (List GLCmd) :=
  let oi := zsort d.opaque_ind d.opaque_vec true d.xyz
  let ai := zsort d.alpha_ind d.alpha_vec false d.xyz
  ({ d with opaque_ind := oi, alpha_ind := ai },
    do
      let o ← drawList d.opaque_vec
      let a ← drawList d.alpha_vec
      let g ← drawList d.gui_vec
      pure ([GLCmd.camera_enable, GLCmd.enable_depth] ++ o ++ a ++
        [GLCmd.disable_depth] ++ g))

/-- `fn model(&mut self, vertices, fans)` (`mod.rs` lines 296-312): upload
the vertex buffer, record `vertices.len() / 4` as the vertex count, return
the next dense index. -/
def model (d : Display) (vertices : List ℚ) (fans : List (Nat × Nat)) :
    Model × Display :=
  let index := d.models.length
  (⟨index⟩,
    { d with models := d.models ++
        [{ vertex_buffer := ⟨vertices⟩,
           vertex_count := vertices.length / 4,
           fans := fans }] })

/-- `fn texture(&mut self, wh, graphic)` (`mod.rs` lines 314-327): create a
new GL texture object, upload the pixels, push a table entry owning it and
return `Texture(index, w, h)`. -/
def texture (d : Display) (wh : Nat × Nat) (graphic : List Nat) :
    Texture × Display :=
  let t := d.context.texImages.length
  let a := d.textures.length
  (⟨a, wh.1, wh.2⟩,
    { d with
        context := { d.context with
          texImages := d.context.texImages ++ [⟨wh.1, wh.2, graphic⟩] },
        textures := d.textures ++ [⟨t⟩] })

/-- `fn gradient(&mut self, colors)` (`mod.rs` lines 329-343): upload the
colour buffer, record `colors.len() / 4` as the vertex count, return the
next dense index. -/
def gradient (d : Display) (colors : List ℚ) : Gradient × Display :=
  let a := d.gradients.length
  (⟨a⟩,
    { d with gradients := d.gradients ++
        [{ vertex_buffer := ⟨colors⟩,
           vertex_count := colors.length / 4 }] })

/-- Buffer built by the upload loop of `texcoords`: for each input pair,
push its two components and two `1.0` fill floats. -/
def texcoordsBuffer (tcs : List (ℚ × ℚ)) : List ℚ :=
  tcs.foldl (fun buffer i => buffer ++ [i.1, i.2, 1, 1]) []

/-- `fn texcoords(&mut self, texcoords)` (`mod.rs` lines 345-366): pad each
2D pair to 4 floats, upload, record the input length as the vertex count,
return the next dense index. -/
def texcoords (d : Display) (tcs : List (ℚ × ℚ)) : TexCoords × Display :=
  let a := d.texcoords.length
  (⟨a⟩,
    { d with texcoords := d.texcoords ++
        [{ vertex_buffer := ⟨texcoordsBuffer tcs⟩,
           vertex_count := tcs.length }] })

/-- `fn set_texture(&mut self, texture, wh, graphic)` (`mod.rs` lines
368-373): re-upload the pixels into the GL texture object owned by the
table entry `texture.0` — in place, through the shared GL object.  The
`Texture` handle itself is returned unchanged: the method never writes the
handle's recorded width and height. -/
def set_texture (d : Display) (texture : Texture) (wh : Nat × Nat)
    (graphic : List Nat) : Display × Texture :=
  let id := (d.textures.getD texture.idx default).t
  ({ d with context := { d.context with
      texImages := d.context.texImages.set id ⟨wh.1, wh.2, graphic⟩ } },
    texture)

/-- Shared tail of every `shape_*` constructor (`mod.rs`, e.g. lines
392-404): push the shape onto `alpha_vec` (when `blending`) or
`opaque_vec`, append its index to the matching `*_ind` order list, and wrap
the index in a handle tagged with the list. -/
def pushShape (d : Display) (shape : ShapeData) (blending : Bool) :
    Shape × Display :=
  if blending then
    let index := d.alpha_vec.length
    (new_shape (ShapeHandle.Alpha index),
      { d with alpha_vec := d.alpha_vec ++ [shape],
               alpha_ind := d.alpha_ind ++ [index] })
  else
    let index := d.opaque_vec.length
    (new_shape (ShapeHandle.Opaque index),
      { d with opaque_vec := d.opaque_vec ++ [shape],
               opaque_ind := d.opaque_ind ++ [index] })

/-- `fn shape_solid` (`mod.rs` lines 376-405). -/
def shape_solid (d : Display) (model : Model) (transform : Matrix)
    (color : Vec4) (blending : Bool) (fog : Bool) (_camera : Bool) :
    Except String (Shape × Display) := do
  let md ← indexGet d.models model.idx
  let shape : ShapeData :=
    { style := STYLE_SOLID,
      buffers := (none, none),
      has_fog := fog,
      alpha := none,
      color := some color,
      texture := none,
      vertex_buffer := md.vertex_buffer,
      transform := transform,
      fans := md.fans }
  pure (pushShape d shape blending)

/-- `fn shape_gradient` (`mod.rs` lines 408-447): panics when the model's
vertex count differs from the gradient's, before building the shape. -/
def shape_gradient (d : Display) (model : Model) (transform : Matrix)
    (colors : Gradient) (blending : Bool) (fog : Bool) (_camera : Bool) :
    Except String (Shape × Display) := do
  let md ← indexGet d.models model.idx
  let gd ← indexGet d.gradients colors.idx
  if md.vertex_count ≠ gd.vertex_count then
    Except.error "TexCoord length does not match gradient length"
  else
    let shape : ShapeData :=
      { style := STYLE_GRADIENT,
        buffers := (some gd.vertex_buffer, none),
        has_fog := fog,
        alpha := none,
        color := none,
        texture := none,
        vertex_buffer := md.vertex_buffer,
        transform := transform,
        fans := md.fans }
    pure (pushShape d shape blending)

/-- `fn shape_texture` (`mod.rs` lines 450-489): panics when the model's
vertex count differs from the texcoords', before building the shape. -/
def shape_texture (d : Display) (model : Model) (transform : Matrix)
    (texture : Texture) (tc : TexCoords) (blending : Bool) (fog : Bool)
    (_camera : Bool) : Except String (Shape × Display) := do
  let md ← indexGet d.models model.idx
  let tcd ← indexGet d.texcoords tc.idx
  if md.vertex_count ≠ tcd.vertex_count then
    Except.error "TexCoord length does not match vertex length"
  else do
    let td ← indexGet d.textures texture.idx
    let shape : ShapeData :=
      { style := STYLE_TEXTURE,
        buffers := (some tcd.vertex_buffer, none),
        has_fog := fog,
        alpha := none,
        color := none,
        texture := some td.t,
        vertex_buffer := md.vertex_buffer,
        transform := transform,
        fans := md.fans }
    pure (pushShape d shape blending)

/-- `fn shape_faded` (`mod.rs` lines 492-525): panics on a vertex-count
mismatch; the shape always goes to the alpha list (there is no `blending`
parameter). -/
def shape_faded (d : Display) (model : Model) (transform : Matrix)
    (texture : Texture) (tc : TexCoords) (alpha : ℚ) (fog : Bool)
    (_camera : Bool) : Except String (Shape × Display) := do
  let md ← indexGet d.models model.idx
  let tcd ← indexGet d.texcoords tc.idx
  if md.vertex_count ≠ tcd.vertex_count then
    Except.error "TexCoord length does not match vertex length"
  else do
    let td ← indexGet d.textures texture.idx
    let shape : ShapeData :=
      { style := STYLE_FADED,
        buffers := (some tcd.vertex_buffer, none),
        has_fog := fog,
        alpha := some alpha,
        color := none,
        texture := some td.t,
        vertex_buffer := md.vertex_buffer,
        transform := transform,
        fans := md.fans }
    pure (pushShape d shape true)

/-- `fn shape_tinted` (`mod.rs` lines 528-567): panics on a vertex-count
mismatch, before building the shape. -/
def shape_tinted (d : Display) (model : Model) (transform : Matrix)
    (texture : Texture) (tc : TexCoords) (tint : Vec4) (blending : Bool)
    (fog : Bool) (_camera : Bool) : Except String (Shape × Display) := do
  let md ← indexGet d.models model.idx
  let tcd ← indexGet d.texcoords tc.idx
  if md.vertex_count ≠ tcd.vertex_count then
    Except.error "TexCoord length does not match vertex length"
  else do
    let td ← indexGet d.textures texture.idx
    let shape : ShapeData :=
      { style := STYLE_TINTED,
        buffers := (some tcd.vertex_buffer, none),
        has_fog := fog,
        alpha := none,
        color := some tint,
        texture := some td.t,
        vertex_buffer := md.vertex_buffer,
        transform := transform,
        fans := md.fans }
    pure (pushShape d shape blending)

/-- `fn shape_complex` (`mod.rs` lines 570-616): panics when the model's
vertex count differs from the texcoords' and then when it differs from the
gradient's, before building the shape. -/
def shape_complex (d : Display) (model : Model) (transform : Matrix)
    (texture : Texture) (tc : TexCoords) (tints : Gradient)
    (blending : Bool) (fog : Bool) (_camera : Bool) :
    Except String (Shape × Display) := do
  let md ← indexGet d.models model.idx
  let tcd ← indexGet d.texcoords tc.idx
  if md.vertex_count ≠ tcd.vertex_count then
    Except.error "TexCoord length does not match vertex length"
  else do
    let gd ← indexGet d.gradients tints.idx
    if md.vertex_count ≠ gd.vertex_count then
      Except.error "TexCoord length does not match gradient length"
    else do
      let td ← indexGet d.textures texture.idx
      let shape : ShapeData :=
        { style := STYLE_COMPLEX,
          buffers := (some tcd.vertex_buffer, some gd.vertex_buffer),
          has_fog := fog,
          alpha := none,
          color := none,
          texture := some td.t,
          vertex_buffer := md.vertex_buffer,
          transform := transform,
          fans := md.fans }
      pure (pushShape d shape blending)

/-- `fn drop_shape(&mut self, shape)` (`mod.rs` lines 618-632): find the
position of the shape's index in its list's order sequence
(`position(|y| *y == x).unwrap()` — a panic when absent) and remove it.
The backing shape vector is untouched. -/
def drop_shape (d : Display) (shape : Shape) : Except String Display :=
  match get_shape shape with
  | ShapeHandle.Opaque x => do
    let index ← expectSome (d.opaque_ind.findIdx? (fun y => y == x))
      "unwrap on None"
    pure { d with opaque_ind := d.opaque_ind.eraseIdx index }
  | ShapeHandle.Alpha x => do
    let index ← expectSome (d.alpha_ind.findIdx? (fun y => y == x))
      "unwrap on None"
    pure { d with alpha_ind := d.alpha_ind.eraseIdx index }

/-- `fn transform(&self, shape, transform)` (`mod.rs` lines 634-646):
overwrite the indexed shape's `transform` field in place in its backing
vector. -/
def transform (d : Display) (shape : Shape) (t : Matrix) : Display :=
  match get_shape shape with
  | ShapeHandle.Opaque x =>
    let s := { d.opaque_vec.getD x default with transform := t }
    { d with opaque_vec := d.opaque_vec.set x s }
  | ShapeHandle.Alpha x =>
    let s := { d.alpha_vec.getD x default with transform := t }
    { d with alpha_vec := d.alpha_vec.set x s }

/-- `fn resize(&mut self, wh)` (`mod.rs` lines 648-656): recompute the
aspect ratio from the new size, update the viewport and rebuild the
projection from the new aspect ratio with the fixed `0.5 * PI` vertical
field of view. -/
def resize (d : Display) (wh : Nat × Nat) : Display :=
  { d with
      ar := (wh.1 : ℚ) / (wh.2 : ℚ),
      context := { d.context with viewport := wh },
      projection := Projection.perspective ((wh.1 : ℚ) / (wh.2 : ℚ)) }

/-! Concrete fixtures used to evaluate the definitions on explicit
inputs. -/

/-- Translation matrix moving the origin to `(x, y, z)`. -/
def translate (x y z : ℚ) : Matrix :=
  ⟨⟨1, 0, 0, 0⟩, ⟨0, 1, 0, 0⟩, ⟨0, 0, 1, 0⟩, ⟨x, y, z, 1⟩⟩

/-- Renderer state as `new()` leaves it for an 800x600 window: every table
and draw list empty, camera at the origin. -/
def display0 : Display :=
  { context := { viewport := (800, 600), texImages := [] },
    color := (0, 0, 0),
    opaque_ind := [], alpha_ind := [],
    opaque_vec := [], alpha_vec := [], gui_vec := [],
    models := [], texcoords := [], gradients := [], textures := [],
    xyz := ⟨0, 0, 0⟩, rotate_xyz := ⟨0, 0, 0⟩,
    ar := 800 / 600, projection := Projection.perspective (800 / 600) }

/-- State after creating one non-blended white solid shape with the given
transform (the creation cannot fail for a valid model handle). -/
def afterSolid (d : Display) (m : Model) (mat : Matrix) : Display :=
  match shape_solid d m mat ⟨1, 0, 0, 1⟩ false false true with
  | Except.ok p => p.2
  | Except.error _ => d

/-- A one-fan, four-vertex model registered on the fresh display. -/
def mdl : Model × Display := model display0 (List.replicate 16 0) [(0, 4)]

/-- The model-transform matrices a GL trace sets, in issue order. -/
def matsOf (cmds : List GLCmd) : List Matrix :=
  cmds.filterMap (fun c => match c with
    | GLCmd.set_mat4 m => some m
    | _ => none)

/-- Three non-blended solid shapes whose origins sit at distances 5, 1 and
3 from the camera, created in that order. -/
def dC1 : Display :=
  afterSolid (afterSolid (afterSolid mdl.2 mdl.1 (translate 0 0 5))
    mdl.1 (translate 0 0 1)) mdl.1 (translate 0 0 3)

/-- Two non-blended solid shapes at distances 5 and 1, in that order. -/
def dC2 : Display :=
  afterSolid (afterSolid mdl.2 mdl.1 (translate 0 0 5)) mdl.1 (translate 0 0 1)

/-- Display owning a 4-vertex model, a 5-vertex gradient, a 3-vertex
texcoords buffer and one 2x2 texture: every paired-buffer vertex count
disagrees with the model's. -/
def dW3 : Display :=
  let d1 := (model display0 (List.replicate 16 0) [(0, 4)]).2
  let d2 := (gradient d1 (List.replicate 20 0)).2
  let d3 := (texcoords d2 (List.replicate 3 (0, 0))).2
  (texture d3 (2, 2) (List.replicate 16 255)).2

/-- Display owning a 4-vertex model, a 4-vertex gradient, a 4-vertex
texcoords buffer and one texture: every pairing is consistent. -/
def dW4 : Display :=
  let d1 := (model display0 (List.replicate 16 0) [(0, 4)]).2
  let d2 := (gradient d1 (List.replicate 16 0)).2
  let d3 := (texcoords d2 (List.replicate 4 (0, 0))).2
  (texture d3 (2, 2) (List.replicate 16 255)).2

/-- One non-blended (opaque-listed) and one blended (alpha-listed) solid
shape. -/
def dC5 : Display :=
  match shape_solid (afterSolid mdl.2 mdl.1 (translate 0 0 5)) mdl.1
      (translate 0 0 1) ⟨1, 0, 0, 1⟩ true false true with
  | Except.ok p => p.2
  | Except.error _ => afterSolid mdl.2 mdl.1 (translate 0 0 5)

/-! Specification-level predicates the claims are stated with. -/

/-- A creation call that turned `d` into `d'` returning handle `s` appended
its shape to the alpha list: the handle records the end-of-list position at
creation time, exactly one shape was appended to `alpha_vec`, its index was
appended to `alpha_ind`, and the other lists were untouched. -/
def listedAlpha (d d' : Display) (s : Shape) : Prop :=
  get_shape s = ShapeHandle.Alpha d.alpha_vec.length ∧
  (∃ sd, d'.alpha_vec = d.alpha_vec ++ [sd]) ∧
  d'.alpha_ind = d.alpha_ind ++ [d.alpha_vec.length] ∧
  d'.opaque_vec = d.opaque_vec ∧
  d'.opaque_ind = d.opaque_ind ∧
  d'.gui_vec = d.gui_vec

/-- Mirror of `listedAlpha` for the opaque list. -/
def listedOpaque (d d' : Display) (s : Shape) : Prop :=
  get_shape s = ShapeHandle.Opaque d.opaque_vec.length ∧
  (∃ sd, d'.opaque_vec = d.opaque_vec ++ [sd]) ∧
  d'.opaque_ind = d.opaque_ind ++ [d.opaque_vec.length] ∧
  d'.alpha_vec = d.alpha_vec ∧
  d'.alpha_ind = d.alpha_ind ∧
  d'.gui_vec = d.gui_vec

/-- The list a shape must land in as a function of the `blending` flag. -/
def assignedBy (d d' : Display) (s : Shape) : Bool → Prop
  | true => listedAlpha d d' s
  | false => listedOpaque d d' s

/-- What `transform` on an opaque-listed handle must do: the indexed shape
keeps every field but gets transform `M` (and a draw of it immediately
afterwards sets the model-transform uniform to exactly `M` first), every
other index of the list is untouched, and every other part of the renderer
state is untouched. -/
def transformSpecO (d : Display) (x : Nat) (M : Matrix) : Prop :=
  (∃ old, d.opaque_vec[x]? = some old ∧
    (transform d (new_shape (ShapeHandle.Opaque x)) M).opaque_vec[x]? =
      some ({ old with transform := M }) ∧
    (∀ st cmds, draw_shape st ({ old with transform := M }) = Except.ok cmds →
      cmds.head? = some (GLCmd.set_mat4 M))) ∧
  (∀ j, j ≠ x →
    (transform d (new_shape (ShapeHandle.Opaque x)) M).opaque_vec[j]? =
      d.opaque_vec[j]?) ∧
  (transform d (new_shape (ShapeHandle.Opaque x)) M).alpha_vec = d.alpha_vec ∧
  (transform d (new_shape (ShapeHandle.Opaque x)) M).gui_vec = d.gui_vec ∧
  (transform d (new_shape (ShapeHandle.Opaque x)) M).opaque_ind = d.opaque_ind ∧
  (transform d (new_shape (ShapeHandle.Opaque x)) M).alpha_ind = d.alpha_ind ∧
  (transform d (new_shape (ShapeHandle.Opaque x)) M).models = d.models ∧
  (transform d (new_shape (ShapeHandle.Opaque x)) M).texcoords = d.texcoords ∧
  (transform d (new_shape (ShapeHandle.Opaque x)) M).gradients = d.gradients ∧
  (transform d (new_shape (ShapeHandle.Opaque x)) M).textures = d.textures ∧
  (transform d (new_shape (ShapeHandle.Opaque x)) M).context = d.context

/-- Mirror of `transformSpecO` for an alpha-listed handle. -/
def transformSpecA (d : Display) (y : Nat) (M : Matrix) : Prop :=
  (∃ old, d.alpha_vec[y]? = some old ∧
    (transform d (new_shape (ShapeHandle.Alpha y)) M).alpha_vec[y]? =
      some ({ old with transform := M }) ∧
    (∀ st cmds, draw_shape st ({ old with transform := M }) = Except.ok cmds →
      cmds.head? = some (GLCmd.set_mat4 M))) ∧
  (∀ j, j ≠ y →
    (transform d (new_shape (ShapeHandle.Alpha y)) M).alpha_vec[j]? =
      d.alpha_vec[j]?) ∧
  (transform d (new_shape (ShapeHandle.Alpha y)) M).opaque_vec = d.opaque_vec ∧
  (transform d (new_shape (ShapeHandle.Alpha y)) M).gui_vec = d.gui_vec ∧
  (transform d (new_shape (ShapeHandle.Alpha y)) M).opaque_ind = d.opaque_ind ∧
  (transform d (new_shape (ShapeHandle.Alpha y)) M).alpha_ind = d.alpha_ind ∧
  (transform d (new_shape (ShapeHandle.Alpha y)) M).models = d.models ∧
  (transform d (new_shape (ShapeHandle.Alpha y)) M).texcoords = d.texcoords ∧
  (transform d (new_shape (ShapeHandle.Alpha y)) M).gradients = d.gradients ∧
  (transform d (new_shape (ShapeHandle.Alpha y)) M).textures = d.textures ∧
  (transform d (new_shape (ShapeHandle.Alpha y)) M).context = d.context

/-- Style-consistency of one shape: every optional field that the shape's
style's shader will unconditionally unwrap in `draw_shape` is present. -/
def styleConsistent (s : ShapeData) : Prop :=
  ((styles s.style).texpos = true →
    s.buffers.1.isSome = true ∧ s.texture.isSome = true) ∧
  ((styles s.style).acolor = true → s.buffers.1.isSome = true) ∧
  ((styles s.style).alpha = true → s.alpha.isSome = true) ∧
  ((styles s.style).color = true → s.color.isSome = true)

/-- Every shape stored in any of the three draw lists is
style-consistent. -/
def displayConsistent (d : Display) : Prop :=
  (∀ s ∈ d.opaque_vec, styleConsistent s) ∧
  (∀ s ∈ d.alpha_vec, styleConsistent s) ∧
  (∀ s ∈ d.gui_vec, styleConsistent s)

instance (s : ShapeData) : Decidable (styleConsistent s) := by
  unfold styleConsistent
  infer_instance

instance (d : Display) : Decidable (displayConsistent d) := by
  unfold displayConsistent
  infer_instance

/-! Helper lemmas. -/

/-- Reduction of a successful `Except` bind. -/
@[simp] theorem except_bind_ok (a : α) (f : α → Except ε β) :
    (Except.ok a : Except ε α) >>= f = f a := rfl

/-- Reduction of a failed `Except` bind. -/
@[simp] theorem except_bind_error (e : ε) (f : α → Except ε β) :
    (Except.error e : Except ε α) >>= f = Except.error e := rfl

/-- Reduction of `Functor.map` on a successful `Except`. -/
@[simp] theorem except_map_ok (g : α → β) (a : α) :
    g <$> (Except.ok a : Except ε α) = Except.ok (g a) := rfl

/-- Reduction of `Functor.map` on a failed `Except`. -/
@[simp] theorem except_map_error (g : α → β) (e : ε) :
    g <$> (Except.error e : Except ε α) = Except.error e := rfl

/-- `pure` on `Except` is `Except.ok`. -/
@[simp] theorem except_pure_eq_ok (a : α) :
    (pure a : Except ε α) = Except.ok a := rfl

/-- The shared push performed at the end of every `shape_*` constructor
lands the shape in the list selected by `blending`. -/
theorem pushShape_assignedBy (d : Display) (sd : ShapeData) (b : Bool) :
    assignedBy d (pushShape d sd b).2 (pushShape d sd b).1 b := by
  cases b <;>
    simp [assignedBy, pushShape, listedAlpha, listedOpaque, new_shape,
      get_shape]

/-- Unpacked form of `pushShape_assignedBy` against an equation. -/
theorem assignedBy_of_push_eq {d : Display} {sd : ShapeData} {b : Bool}
    {s : Shape} {d' : Display} (h : pushShape d sd b = (s, d')) :
    assignedBy d d' s b := by
  have hp := pushShape_assignedBy d sd b
  rw [h] at hp
  exact hp

/-- Capability table of the solid style. -/
theorem styles_solid : styles STYLE_SOLID =
    { texpos := false, acolor := false, alpha := false, color := true } := rfl

/-- Capability table of the gradient style. -/
theorem styles_gradient : styles STYLE_GRADIENT =
    { texpos := false, acolor := true, alpha := false, color := false } := rfl

/-- Capability table of the texture style. -/
theorem styles_texture : styles STYLE_TEXTURE =
    { texpos := true, acolor := false, alpha := false, color := false } := rfl

/-- Capability table of the faded style. -/
theorem styles_faded : styles STYLE_FADED =
    { texpos := true, acolor := false, alpha := true, color := false } := rfl

/-- Capability table of the tinted style. -/
theorem styles_tinted : styles STYLE_TINTED =
    { texpos := true, acolor := false, alpha := false, color := true } := rfl

/-- Capability table of the complex style. -/
theorem styles_complex : styles STYLE_COMPLEX =
    { texpos := true, acolor := true, alpha := false, color := false } := rfl

/-- A successful `draw_shape` trace starts with the model-transform
uniform being set to the shape's stored transform. -/
theorem draw_shape_head (st : Style) (s : ShapeData) (cmds : List GLCmd)
    (h : draw_shape st s = Except.ok cmds) :
    cmds.head? = some (GLCmd.set_mat4 s.transform) := by
  unfold draw_shape at h
  cases h1 : texposCmds st s with
  | error e => rw [h1] at h; simp at h
  | ok tp =>
    rw [h1] at h
    cases h2 : acolorCmds st s with
    | error e => rw [h2] at h; simp at h
    | ok ac =>
      rw [h2] at h
      cases h3 : alphaCmds st s with
      | error e => rw [h3] at h; simp at h
      | ok al =>
        rw [h3] at h
        cases h4 : colorCmds st s with
        | error e => rw [h4] at h; simp at h
        | ok co =>
          rw [h4] at h
          simp at h
          subst h
          simp

/-- A shape whose optional fields cover everything the style declares is
drawn without hitting any unwrap. -/
theorem draw_shape_ok (st : Style) (s : ShapeData)
    (h1 : st.texpos = true → s.buffers.1.isSome = true ∧ s.texture.isSome = true)
    (h2 : st.acolor = true → s.buffers.1.isSome = true)
    (h3 : st.alpha = true → s.alpha.isSome = true)
    (h4 : st.color = true → s.color.isSome = true) :
    ∃ cmds, draw_shape st s = Except.ok cmds := by
  rcases st with ⟨tp, ac, al, co⟩
  cases tp <;> cases ac <;> cases al <;> cases co <;>
    simp_all [draw_shape, texposCmds, acolorCmds, alphaCmds, colorCmds,
      Option.isSome_iff_exists] <;>
    rcases hb : s.buffers.1 with _ | b <;>
    rcases htex : s.texture with _ | t <;>
    rcases hal : s.alpha with _ | a <;>
    rcases hco : s.color with _ | c <;>
    simp_all

/-- A `transform`-field update does not affect style-consistency. -/
theorem styleConsistent_update_transform {s : ShapeData} (M : Matrix)
    (h : styleConsistent s) : styleConsistent ({ s with transform := M }) := by
  simpa [styleConsistent] using h

/-- `pushShape` preserves the display-wide consistency invariant when the
pushed shape is consistent. -/
theorem displayConsistent_pushShape {d : Display} {sd : ShapeData}
    (b : Bool) (hd : displayConsistent d) (hs : styleConsistent sd) :
    displayConsistent (pushShape d sd b).2 := by
  obtain ⟨h1, h2, h3⟩ := hd
  cases b <;> simp only [pushShape] <;>
    refine ⟨?_, ?_, ?_⟩ <;>
    intro s hsm <;>
    first
      | exact h1 s hsm
      | exact h2 s hsm
      | exact h3 s hsm
      | (rcases List.mem_append.mp hsm with hm | hm
         · first | exact h1 s hm | exact h2 s hm
         · rw [List.mem_singleton.mp hm]; exact hs)

/-- Unpacked form of `displayConsistent_pushShape` against an equation. -/
theorem displayConsistent_of_push_eq {d : Display} {sd : ShapeData}
    {b : Bool} {s : Shape} {d' : Display} (hd : displayConsistent d)
    (hs : styleConsistent sd) (h : pushShape d sd b = (s, d')) :
    displayConsistent d' := by
  have hp := displayConsistent_pushShape b hd hs
  rw [h] at hp
  exact hp

/-- If the first occurrence of `x` is removed from a duplicate-free list,
`x` no longer occurs at all. -/
theorem not_mem_eraseIdx_findIdx {l : List Nat} {x i : Nat}
    (hnd : l.Nodup) (h : l.findIdx? (fun y => y == x) = some i) :
    x ∉ l.eraseIdx i := by
  induction l generalizing i with
  | nil => simp at h
  | cons a t ih =>
    rw [List.findIdx?_cons] at h
    by_cases hax : a = x
    · subst hax
      simp at h
      subst h
      simpa using (List.nodup_cons.mp hnd).1
    · have hbeq : (a == x) = false := by simp [hax]
      rw [hbeq] at h
      simp only [Bool.false_eq_true, if_false] at h
      rw [List.findIdx?_succ] at h
      rcases Option.map_eq_some'.mp h with ⟨j, hj, hji⟩
      subst hji
      simp only [List.eraseIdx_cons_succ, List.mem_cons, not_or]
      exact ⟨fun hxa => hax hxa.symm, ih (List.nodup_cons.mp hnd).2 hj⟩

/-- The upload loop of `texcoords` produces four floats per input pair:
the two components followed by the two constant `1.0` fills. -/
theorem texcoordsBuffer_eq_flatMap (tcs : List (ℚ × ℚ)) :
    texcoordsBuffer tcs = tcs.flatMap (fun i => [i.1, i.2, 1, 1]) := by
  suffices h : ∀ init : List ℚ,
      tcs.foldl (fun buffer i => buffer ++ [i.1, i.2, 1, 1]) init =
        init ++ tcs.flatMap (fun i => [i.1, i.2, 1, 1]) by
    simpa [texcoordsBuffer] using h []
  induction tcs with
  | nil => simp
  | cons a t ih => intro init; simp [ih]

/-- The uploaded texcoords buffer holds exactly four floats per pair. -/
theorem texcoordsBuffer_length (tcs : List (ℚ × ℚ)) :
    (texcoordsBuffer tcs).length = 4 * tcs.length := by
  rw [texcoordsBuffer_eq_flatMap]
  induction tcs with
  | nil => simp
  | cons a t ih => simp [ih]; ring

/-! Claim theorems. -/

/-- C1: the claim says each frame draws the opaque list nearest-first and
the alpha list farthest-first.  On three opaque shapes created at camera
distances 5, 1, 3: `update` does stably sort the order list `opaque_ind`
into ascending distance order `[1, 2, 0]` (shape 1 at distance 1, shape 2
at distance 3, shape 0 at distance 5), but the draw pass iterates the raw
backing vector, so the frame's trace sets the three model transforms in
insertion order — distances 5, 1, 3 — which differs from the claimed
ascending order 1, 3, 5.  The sorted index list is computed and never
consulted by the draw loops. -/
theorem C1_update_draws_raw_vector_order :
    (update dC1).1.opaque_ind = [1, 2, 0] ∧
    (update dC1).2.map matsOf =
      Except.ok [translate 0 0 5, translate 0 0 1, translate 0 0 3] ∧
    (Except.ok [translate 0 0 5, translate 0 0 1, translate 0 0 3] :
        Except String (List Matrix)) ≠
      Except.ok [translate 0 0 1, translate 0 0 3, translate 0 0 5] := by
  refine ⟨?_, rfl, ?_⟩
  · show zsort dC1.opaque_ind dC1.opaque_vec true dC1.xyz = [1, 2, 0]
    simp [zsort, stableSort, insertSorted, zsortLe, distSq, point, dC1,
      afterSolid, mdl, display0, model, shape_solid, pushShape, indexGet,
      translate]
    norm_num
  · simp [translate]

/-- C2: the claim says a dropped shape is excluded from every subsequent
sort and every subsequent draw pass.  On two opaque shapes (indices 0 and
1), dropping shape 0 removes its index from `opaque_ind`, so the subsequent
sort covers only index 1 — but the next `update` still sets both model
transforms, the dropped shape's `translate 0 0 5` included, because the
draw pass iterates the raw backing vector and the storage slot is not
reclaimed. -/
theorem C2_dropped_shape_still_drawn :
    ∃ d', drop_shape dC2 (new_shape (ShapeHandle.Opaque 0)) = Except.ok d' ∧
      d'.opaque_ind = [1] ∧
      (update d').1.opaque_ind = [1] ∧
      (update d').2.map matsOf =
        Except.ok [translate 0 0 5, translate 0 0 1] :=
  ⟨_, rfl, rfl, rfl, rfl⟩

/-- C3: every shape-creation operation that pairs a model with a texcoords
or gradient buffer fails fatally (panics) when the vertex counts differ,
and the error is raised before anything is pushed onto a draw list — the
operation returns the error without producing any successor state. -/
theorem C3_vertex_count_mismatch_is_fatal (d : Display) (mi ti gi : Nat)
    (T : Matrix) (txh : Texture) (md : ModelData) (tcd : TexcoordsData)
    (gd : GradientData) (b f c : Bool) (tint : Vec4) (al : ℚ)
    (hm : d.models[mi]? = some md)
    (ht : d.texcoords[ti]? = some tcd)
    (hg : d.gradients[gi]? = some gd)
    (hmt : md.vertex_count ≠ tcd.vertex_count)
    (hmg : md.vertex_count ≠ gd.vertex_count) :
    shape_gradient d ⟨mi⟩ T ⟨gi⟩ b f c =
      Except.error "TexCoord length does not match gradient length" ∧
    shape_texture d ⟨mi⟩ T txh ⟨ti⟩ b f c =
      Except.error "TexCoord length does not match vertex length" ∧
    shape_faded d ⟨mi⟩ T txh ⟨ti⟩ al f c =
      Except.error "TexCoord length does not match vertex length" ∧
    shape_tinted d ⟨mi⟩ T txh ⟨ti⟩ tint b f c =
      Except.error "TexCoord length does not match vertex length" ∧
    shape_complex d ⟨mi⟩ T txh ⟨ti⟩ ⟨gi⟩ b f c =
      Except.error "TexCoord length does not match vertex length" := by
  refine ⟨?_, ?_, ?_, ?_, ?_⟩ <;>
    simp [shape_gradient, shape_texture, shape_faded, shape_tinted,
      shape_complex, indexGet, hm, ht, hg, hmt, hmg]

/-- Witness for C3 on a display whose model has 4 vertices while its
texcoords buffer has 3 and its gradient 5. -/
theorem C3_vertex_count_mismatch_is_fatal_witness :
    shape_gradient dW3 ⟨0⟩ (translate 0 0 0) ⟨0⟩ false false false =
      Except.error "TexCoord length does not match gradient length" ∧
    shape_texture dW3 ⟨0⟩ (translate 0 0 0) ⟨0, 2, 2⟩ ⟨0⟩ false false false =
      Except.error "TexCoord length does not match vertex length" ∧
    shape_faded dW3 ⟨0⟩ (translate 0 0 0) ⟨0, 2, 2⟩ ⟨0⟩ 1 false false =
      Except.error "TexCoord length does not match vertex length" ∧
    shape_tinted dW3 ⟨0⟩ (translate 0 0 0) ⟨0, 2, 2⟩ ⟨0⟩ ⟨0, 0, 0, 0⟩
        false false false =
      Except.error "TexCoord length does not match vertex length" ∧
    shape_complex dW3 ⟨0⟩ (translate 0 0 0) ⟨0, 2, 2⟩ ⟨0⟩ ⟨0⟩
        false false false =
      Except.error "TexCoord length does not match vertex length" :=
  C3_vertex_count_mismatch_is_fatal dW3 0 0 0 (translate 0 0 0) ⟨0, 2, 2⟩
    _ _ _ false false false ⟨0, 0, 0, 0⟩ 1 rfl rfl rfl
    (by decide) (by decide)

/-- C4: every successful shape creation assigns the new shape to exactly
one draw list — `shape_faded` always to the alpha list, every other
operation to the alpha list when `blending` is true and to the opaque list
otherwise — and the returned handle records the shape's position in that
list at creation time. -/
theorem C4_one_draw_list_per_shape (d : Display) (mi ti gi : Nat)
    (T : Matrix) (txh : Texture) (c4 tint : Vec4) (b f cam : Bool) (al : ℚ) :
    (∀ s d', shape_solid d ⟨mi⟩ T c4 b f cam = Except.ok (s, d') →
      assignedBy d d' s b) ∧
    (∀ s d', shape_gradient d ⟨mi⟩ T ⟨gi⟩ b f cam = Except.ok (s, d') →
      assignedBy d d' s b) ∧
    (∀ s d', shape_texture d ⟨mi⟩ T txh ⟨ti⟩ b f cam = Except.ok (s, d') →
      assignedBy d d' s b) ∧
    (∀ s d', shape_faded d ⟨mi⟩ T txh ⟨ti⟩ al f cam = Except.ok (s, d') →
      listedAlpha d d' s) ∧
    (∀ s d', shape_tinted d ⟨mi⟩ T txh ⟨ti⟩ tint b f cam = Except.ok (s, d') →
      assignedBy d d' s b) ∧
    (∀ s d', shape_complex d ⟨mi⟩ T txh ⟨ti⟩ ⟨gi⟩ b f cam = Except.ok (s, d') →
      assignedBy d d' s b) := by
  refine ⟨?_, ?_, ?_, ?_, ?_, ?_⟩
  · intro s d' hp
    rcases hmm : d.models[mi]? with _ | md
    · simp [shape_solid, indexGet, hmm] at hp
    · simp [shape_solid, indexGet, hmm] at hp
      exact assignedBy_of_push_eq hp
  · intro s d' hp
    rcases hmm : d.models[mi]? with _ | md
    · simp [shape_gradient, indexGet, hmm] at hp
    · rcases hgg : d.gradients[gi]? with _ | gd
      · simp [shape_gradient, indexGet, hmm, hgg] at hp
      · by_cases hv : md.vertex_count = gd.vertex_count
        · simp [shape_gradient, indexGet, hmm, hgg, hv] at hp
          exact assignedBy_of_push_eq hp
        · simp [shape_gradient, indexGet, hmm, hgg, hv] at hp
  · intro s d' hp
    rcases hmm : d.models[mi]? with _ | md
    · simp [shape_texture, indexGet, hmm] at hp
    · rcases htc : d.texcoords[ti]? with _ | tcd
      · simp [shape_texture, indexGet, hmm, htc] at hp
      · by_cases hv : md.vertex_count = tcd.vertex_count
        · rcases htt : d.textures[txh.idx]? with _ | td
          · simp [shape_texture, indexGet, hmm, htc, hv, htt] at hp
          · simp [shape_texture, indexGet, hmm, htc, hv, htt] at hp
            exact assignedBy_of_push_eq hp
        · simp [shape_texture, indexGet, hmm, htc, hv] at hp
  · intro s d' hp
    rcases hmm : d.models[mi]? with _ | md
    · simp [shape_faded, indexGet, hmm] at hp
    · rcases htc : d.texcoords[ti]? with _ | tcd
      · simp [shape_faded, indexGet, hmm, htc] at hp
      · by_cases hv : md.vertex_count = tcd.vertex_count
        · rcases htt : d.textures[txh.idx]? with _ | td
          · simp [shape_faded, indexGet, hmm, htc, hv, htt] at hp
          · simp [shape_faded, indexGet, hmm, htc, hv, htt] at hp
            exact assignedBy_of_push_eq hp
        · simp [shape_faded, indexGet, hmm, htc, hv] at hp
  · intro s d' hp
    rcases hmm : d.models[mi]? with _ | md
    · simp [shape_tinted, indexGet, hmm] at hp
    · rcases htc : d.texcoords[ti]? with _ | tcd
      · simp [shape_tinted, indexGet, hmm, htc] at hp
      · by_cases hv : md.vertex_count = tcd.vertex_count
        · rcases htt : d.textures[txh.idx]? with _ | td
          · simp [shape_tinted, indexGet, hmm, htc, hv, htt] at hp
          · simp [shape_tinted, indexGet, hmm, htc, hv, htt] at hp
            exact assignedBy_of_push_eq hp
        · simp [shape_tinted, indexGet, hmm, htc, hv] at hp
  · intro s d' hp
    rcases hmm : d.models[mi]? with _ | md
    · simp [shape_complex, indexGet, hmm] at hp
    · rcases htc : d.texcoords[ti]? with _ | tcd
      · simp [shape_complex, indexGet, hmm, htc] at hp
      · by_cases hv : md.vertex_count = tcd.vertex_count
        · rcases hgg : d.gradients[gi]? with _ | gd
          · simp [shape_complex, indexGet, hmm, htc, hv, hgg] at hp
          · by_cases hv2 : tcd.vertex_count = gd.vertex_count
            · rcases htt : d.textures[txh.idx]? with _ | td
              · simp [shape_complex, indexGet, hmm, htc, hv, hgg, hv2,
                  htt] at hp
              · simp [shape_complex, indexGet, hmm, htc, hv, hgg, hv2,
                  htt] at hp
                exact assignedBy_of_push_eq hp
            · simp [shape_complex, indexGet, hmm, htc, hv, hgg, hv2] at hp
        · simp [shape_complex, indexGet, hmm, htc, hv] at hp

/-- Witness for C4: all six creation operations evaluated on a consistent
display, with `blending` exercising both draw lists. -/
theorem C4_one_draw_list_per_shape_witness :
    (∃ s d', shape_solid dW4 ⟨0⟩ (translate 0 0 0) ⟨1, 0, 0, 1⟩ true false
        true = Except.ok (s, d') ∧ assignedBy dW4 d' s true) ∧
    (∃ s d', shape_gradient dW4 ⟨0⟩ (translate 0 0 0) ⟨0⟩ false false
        true = Except.ok (s, d') ∧ assignedBy dW4 d' s false) ∧
    (∃ s d', shape_texture dW4 ⟨0⟩ (translate 0 0 0) ⟨0, 2, 2⟩ ⟨0⟩ true
        false true = Except.ok (s, d') ∧ assignedBy dW4 d' s true) ∧
    (∃ s d', shape_faded dW4 ⟨0⟩ (translate 0 0 0) ⟨0, 2, 2⟩ ⟨0⟩ 1 false
        true = Except.ok (s, d') ∧ listedAlpha dW4 d' s) ∧
    (∃ s d', shape_tinted dW4 ⟨0⟩ (translate 0 0 0) ⟨0, 2, 2⟩ ⟨0⟩
        ⟨1, 1, 1, 1⟩ false false true = Except.ok (s, d') ∧
        assignedBy dW4 d' s false) ∧
    (∃ s d', shape_complex dW4 ⟨0⟩ (translate 0 0 0) ⟨0, 2, 2⟩ ⟨0⟩ ⟨0⟩
        true false true = Except.ok (s, d') ∧ assignedBy dW4 d' s true) := by
  refine ⟨⟨_, _, rfl, ?_⟩, ⟨_, _, rfl, ?_⟩, ⟨_, _, rfl, ?_⟩,
    ⟨_, _, rfl, ?_⟩, ⟨_, _, rfl, ?_⟩, ⟨_, _, rfl, ?_⟩⟩
  · exact (C4_one_draw_list_per_shape dW4 0 0 0 (translate 0 0 0) ⟨0, 2, 2⟩
      ⟨1, 0, 0, 1⟩ ⟨1, 1, 1, 1⟩ true false true 1).1 _ _ rfl
  · exact (C4_one_draw_list_per_shape dW4 0 0 0 (translate 0 0 0) ⟨0, 2, 2⟩
      ⟨1, 0, 0, 1⟩ ⟨1, 1, 1, 1⟩ false false true 1).2.1 _ _ rfl
  · exact (C4_one_draw_list_per_shape dW4 0 0 0 (translate 0 0 0) ⟨0, 2, 2⟩
      ⟨1, 0, 0, 1⟩ ⟨1, 1, 1, 1⟩ true false true 1).2.2.1 _ _ rfl
  · exact (C4_one_draw_list_per_shape dW4 0 0 0 (translate 0 0 0) ⟨0, 2, 2⟩
      ⟨1, 0, 0, 1⟩ ⟨1, 1, 1, 1⟩ true false true 1).2.2.2.1 _ _ rfl
  · exact (C4_one_draw_list_per_shape dW4 0 0 0 (translate 0 0 0) ⟨0, 2, 2⟩
      ⟨1, 0, 0, 1⟩ ⟨1, 1, 1, 1⟩ false false true 1).2.2.2.2.1 _ _ rfl
  · exact (C4_one_draw_list_per_shape dW4 0 0 0 (translate 0 0 0) ⟨0, 2, 2⟩
      ⟨1, 0, 0, 1⟩ ⟨1, 1, 1, 1⟩ true false true 1).2.2.2.2.2 _ _ rfl

/-- C5: for a live shape in either list, `transform` overwrites exactly
that shape's stored matrix in place, leaves every other shape and every
other part of the state untouched, and an immediately following draw of the
shape sets the model-transform uniform to exactly the new matrix. -/
theorem C5_transform_updates_in_place (d : Display) (x y : Nat) (M : Matrix)
    (hx : x < d.opaque_vec.length) (hy : y < d.alpha_vec.length) :
    transformSpecO d x M ∧ transformSpecA d y M := by
  constructor
  · refine ⟨⟨d.opaque_vec[x], List.getElem?_eq_getElem hx, ?_, ?_⟩, ?_,
      rfl, rfl, rfl, rfl, rfl, rfl, rfl, rfl, rfl⟩
    · simp [transform, new_shape, get_shape, List.getElem?_set_self hx,
        List.getD_eq_getElem?_getD, List.getElem?_eq_getElem hx]
    · intro st cmds hcm
      simpa using draw_shape_head st _ cmds hcm
    · intro j hj
      simp [transform, new_shape, get_shape,
        List.getElem?_set_ne (Ne.symm hj)]
  · refine ⟨⟨d.alpha_vec[y], List.getElem?_eq_getElem hy, ?_, ?_⟩, ?_,
      rfl, rfl, rfl, rfl, rfl, rfl, rfl, rfl, rfl⟩
    · simp [transform, new_shape, get_shape, List.getElem?_set_self hy,
        List.getD_eq_getElem?_getD, List.getElem?_eq_getElem hy]
    · intro st cmds hcm
      simpa using draw_shape_head st _ cmds hcm
    · intro j hj
      simp [transform, new_shape, get_shape,
        List.getElem?_set_ne (Ne.symm hj)]

/-- Witness for C5 on a display with one opaque-listed and one
alpha-listed shape. -/
theorem C5_transform_updates_in_place_witness :
    transformSpecO dC5 0 (translate 9 9 9) ∧
    transformSpecA dC5 0 (translate 9 9 9) :=
  C5_transform_updates_in_place dC5 0 0 (translate 9 9 9)
    (by decide) (by decide)

/-- C6: `resize (w, h)` stores aspect ratio `w / h`, rebuilds the
projection from that ratio (with the fixed vertical field of view), updates
the viewport, and leaves every shape, draw list, resource table and camera
field unchanged; in particular after `resize (400, 300)` the stored ratio
is `400 / 300`, which is the same value as `800 / 600`. -/
theorem C6_resize_rebuilds_projection (d : Display) (w h : Nat) :
    (resize d (w, h)).ar = (w : ℚ) / (h : ℚ) ∧
    (resize d (w, h)).projection =
      Projection.perspective ((w : ℚ) / (h : ℚ)) ∧
    (resize d (w, h)).context.viewport = (w, h) ∧
    (resize d (w, h)).context.texImages = d.context.texImages ∧
    (resize d (w, h)).opaque_vec = d.opaque_vec ∧
    (resize d (w, h)).alpha_vec = d.alpha_vec ∧
    (resize d (w, h)).gui_vec = d.gui_vec ∧
    (resize d (w, h)).opaque_ind = d.opaque_ind ∧
    (resize d (w, h)).alpha_ind = d.alpha_ind ∧
    (resize d (w, h)).models = d.models ∧
    (resize d (w, h)).texcoords = d.texcoords ∧
    (resize d (w, h)).gradients = d.gradients ∧
    (resize d (w, h)).textures = d.textures ∧
    (resize d (w, h)).xyz = d.xyz ∧
    (resize d (w, h)).rotate_xyz = d.rotate_xyz ∧
    (resize d (w, h)).color = d.color ∧
    (resize d (400, 300)).ar = 400 / 300 ∧
    (resize d (400, 300)).ar = 800 / 600 := by
  refine ⟨rfl, rfl, rfl, rfl, rfl, rfl, rfl, rfl, rfl, rfl, rfl, rfl, rfl,
    rfl, rfl, rfl, ?_, ?_⟩
  · show ((400 : Nat) : ℚ) / ((300 : Nat) : ℚ) = 400 / 300
    norm_num
  · show ((400 : Nat) : ℚ) / ((300 : Nat) : ℚ) = 800 / 600
    norm_num

/-- C7: `texcoords` returns the next dense table index, appends one entry
whose vertex count is the input length and whose uploaded buffer holds
exactly four floats per input pair — the two components padded with two
constant `1.0` fills — and consults no model at insertion time (the result
is unchanged under any replacement of the model table). -/
theorem C7_texcoords_pads_and_defers_checks (d : Display)
    (tcs : List (ℚ × ℚ)) (ms : List ModelData) :
    (texcoords d tcs).1 = ⟨d.texcoords.length⟩ ∧
    (∃ entry, (texcoords d tcs).2.texcoords = d.texcoords ++ [entry] ∧
      entry.vertex_count = tcs.length ∧
      entry.vertex_buffer.data = tcs.flatMap (fun i => [i.1, i.2, 1, 1]) ∧
      entry.vertex_buffer.data.length = 4 * tcs.length) ∧
    (texcoords ({ d with models := ms }) tcs).1 = (texcoords d tcs).1 ∧
    (texcoords ({ d with models := ms }) tcs).2.texcoords =
      (texcoords d tcs).2.texcoords :=
  ⟨rfl, ⟨_, rfl, rfl, texcoordsBuffer_eq_flatMap tcs,
    texcoordsBuffer_length tcs⟩, rfl, rfl⟩

/-- C8: style-consistency — every optional shape field that the shape's
style's shader unconditionally unwraps in `draw_shape` is present — is
established by all six creation operations and preserved by `transform` and
`drop_shape`; consequently `draw_shape` succeeds (no unwrap panics) on
every shape held in any draw list of a consistent display. -/
theorem C8_draw_never_unwraps_missing_fields (d : Display)
    (hd : displayConsistent d) :
    (∀ (m : Model) (T : Matrix) (c4 : Vec4) (b f cam : Bool) s d',
      shape_solid d m T c4 b f cam = Except.ok (s, d') →
      displayConsistent d') ∧
    (∀ (m : Model) (T : Matrix) (g : Gradient) (b f cam : Bool) s d',
      shape_gradient d m T g b f cam = Except.ok (s, d') →
      displayConsistent d') ∧
    (∀ (m : Model) (T : Matrix) (tx : Texture) (tc : TexCoords)
      (b f cam : Bool) s d',
      shape_texture d m T tx tc b f cam = Except.ok (s, d') →
      displayConsistent d') ∧
    (∀ (m : Model) (T : Matrix) (tx : Texture) (tc : TexCoords) (al : ℚ)
      (f cam : Bool) s d',
      shape_faded d m T tx tc al f cam = Except.ok (s, d') →
      displayConsistent d') ∧
    (∀ (m : Model) (T : Matrix) (tx : Texture) (tc : TexCoords)
      (tint : Vec4) (b f cam : Bool) s d',
      shape_tinted d m T tx tc tint b f cam = Except.ok (s, d') →
      displayConsistent d') ∧
    (∀ (m : Model) (T : Matrix) (tx : Texture) (tc : TexCoords)
      (g : Gradient) (b f cam : Bool) s d',
      shape_complex d m T tx tc g b f cam = Except.ok (s, d') →
      displayConsistent d') ∧
    (∀ (sh : Shape) (M : Matrix), displayConsistent (transform d sh M)) ∧
    (∀ (sh : Shape) (d' : Display), drop_shape d sh = Except.ok d' →
      displayConsistent d') ∧
    (∀ s : ShapeData, s ∈ d.opaque_vec ∨ s ∈ d.alpha_vec ∨ s ∈ d.gui_vec →
      ∃ cmds, draw_shape (styles s.style) s = Except.ok cmds) := by
  refine ⟨?_, ?_, ?_, ?_, ?_, ?_, ?_, ?_, ?_⟩
  · intro m T c4 b f cam s d' hp
    rcases hmm : d.models[m.idx]? with _ | md
    · simp [shape_solid, indexGet, hmm] at hp
    · simp [shape_solid, indexGet, hmm] at hp
      exact displayConsistent_of_push_eq hd
        (by simp [styleConsistent, styles_solid]) hp
  · intro m T g b f cam s d' hp
    rcases hmm : d.models[m.idx]? with _ | md
    · simp [shape_gradient, indexGet, hmm] at hp
    · rcases hgg : d.gradients[g.idx]? with _ | gd
      · simp [shape_gradient, indexGet, hmm, hgg] at hp
      · by_cases hv : md.vertex_count = gd.vertex_count
        · simp [shape_gradient, indexGet, hmm, hgg, hv] at hp
          exact displayConsistent_of_push_eq hd
            (by simp [styleConsistent, styles_gradient]) hp
        · simp [shape_gradient, indexGet, hmm, hgg, hv] at hp
  · intro m T tx tc b f cam s d' hp
    rcases hmm : d.models[m.idx]? with _ | md
    · simp [shape_texture, indexGet, hmm] at hp
    · rcases htc : d.texcoords[tc.idx]? with _ | tcd
      · simp [shape_texture, indexGet, hmm, htc] at hp
      · by_cases hv : md.vertex_count = tcd.vertex_count
        · rcases htt : d.textures[tx.idx]? with _ | td
          · simp [shape_texture, indexGet, hmm, htc, hv, htt] at hp
          · simp [shape_texture, indexGet, hmm, htc, hv, htt] at hp
            exact displayConsistent_of_push_eq hd
              (by simp [styleConsistent, styles_texture]) hp
        · simp [shape_texture, indexGet, hmm, htc, hv] at hp
  · intro m T tx tc al f cam s d' hp
    rcases hmm : d.models[m.idx]? with _ | md
    · simp [shape_faded, indexGet, hmm] at hp
    · rcases htc : d.texcoords[tc.idx]? with _ | tcd
      · simp [shape_faded, indexGet, hmm, htc] at hp
      · by_cases hv : md.vertex_count = tcd.vertex_count
        · rcases htt : d.textures[tx.idx]? with _ | td
          · simp [shape_faded, indexGet, hmm, htc, hv, htt] at hp
          · simp [shape_faded, indexGet, hmm, htc, hv, htt] at hp
            exact displayConsistent_of_push_eq hd
              (by simp [styleConsistent, styles_faded]) hp
        · simp [shape_faded, indexGet, hmm, htc, hv] at hp
  · intro m T tx tc tint b f cam s d' hp
    rcases hmm : d.models[m.idx]? with _ | md
    · simp [shape_tinted, indexGet, hmm] at hp
    · rcases htc : d.texcoords[tc.idx]? with _ | tcd
      · simp [shape_tinted, indexGet, hmm, htc] at hp
      · by_cases hv : md.vertex_count = tcd.vertex_count
        · rcases htt : d.textures[tx.idx]? with _ | td
          · simp [shape_tinted, indexGet, hmm, htc, hv, htt] at hp
          · simp [shape_tinted, indexGet, hmm, htc, hv, htt] at hp
            exact displayConsistent_of_push_eq hd
              (by simp [styleConsistent, styles_tinted]) hp
        · simp [shape_tinted, indexGet, hmm, htc, hv] at hp
  · intro m T tx tc g b f cam s d' hp
    rcases hmm : d.models[m.idx]? with _ | md
    · simp [shape_complex, indexGet, hmm] at hp
    · rcases htc : d.texcoords[tc.idx]? with _ | tcd
      · simp [shape_complex, indexGet, hmm, htc] at hp
      · by_cases hv : md.vertex_count = tcd.vertex_count
        · rcases hgg : d.gradients[g.idx]? with _ | gd
          · simp [shape_complex, indexGet, hmm, htc, hv, hgg] at hp
          · by_cases hv2 : tcd.vertex_count = gd.vertex_count
            · rcases htt : d.textures[tx.idx]? with _ | td
              · simp [shape_complex, indexGet, hmm, htc, hv, hgg, hv2,
                  htt] at hp
              · simp [shape_complex, indexGet, hmm, htc, hv, hgg, hv2,
                  htt] at hp
                exact displayConsistent_of_push_eq hd
                  (by simp [styleConsistent, styles_complex]) hp
            · simp [shape_complex, indexGet, hmm, htc, hv, hgg, hv2] at hp
        · simp [shape_complex, indexGet, hmm, htc, hv] at hp
  · intro sh M
    obtain ⟨h1, h2, h3⟩ := hd
    cases hsh : get_shape sh with
    | Opaque x =>
      by_cases hx : x < d.opaque_vec.length
      · simp only [transform, hsh]
        refine ⟨?_, h2, h3⟩
        intro s hsm
        rcases List.mem_or_eq_of_mem_set hsm with hm | he
        · exact h1 s hm
        · rw [he]
          have hgd : d.opaque_vec.getD x default = d.opaque_vec[x] := by
            simp [List.getD_eq_getElem?_getD, List.getElem?_eq_getElem hx]
          rw [hgd]
          exact styleConsistent_update_transform M
            (h1 _ (List.getElem_mem hx))
      · simp only [transform, hsh]
        rw [List.set_eq_of_length_le (Nat.le_of_not_lt hx)]
        exact ⟨h1, h2, h3⟩
    | Alpha y =>
      by_cases hy : y < d.alpha_vec.length
      · simp only [transform, hsh]
        refine ⟨h1, ?_, h3⟩
        intro s hsm
        rcases List.mem_or_eq_of_mem_set hsm with hm | he
        · exact h2 s hm
        · rw [he]
          have hgd : d.alpha_vec.getD y default = d.alpha_vec[y] := by
            simp [List.getD_eq_getElem?_getD, List.getElem?_eq_getElem hy]
          rw [hgd]
          exact styleConsistent_update_transform M
            (h2 _ (List.getElem_mem hy))
      · simp only [transform, hsh]
        rw [List.set_eq_of_length_le (Nat.le_of_not_lt hy)]
        exact ⟨h1, h2, h3⟩
  · intro sh d' hp
    obtain ⟨h1, h2, h3⟩ := hd
    cases hsh : get_shape sh with
    | Opaque x =>
      simp only [drop_shape, hsh] at hp
      rcases hf : d.opaque_ind.findIdx? (fun y => y == x) with _ | i <;>
        rw [hf] at hp <;> simp [expectSome] at hp
      subst hp
      exact ⟨h1, h2, h3⟩
    | Alpha y =>
      simp only [drop_shape, hsh] at hp
      rcases hf : d.alpha_ind.findIdx? (fun z => z == y) with _ | i <;>
        rw [hf] at hp <;> simp [expectSome] at hp
      subst hp
      exact ⟨h1, h2, h3⟩
  · intro s hs
    obtain ⟨h1, h2, h3⟩ := hd
    have hc : styleConsistent s := by
      rcases hs with h | h | h
      · exact h1 s h
      · exact h2 s h
      · exact h3 s h
    obtain ⟨c1, c2, c3, c4⟩ := hc
    exact draw_shape_ok _ _ c1 c2 c3 c4

/-- Witness for C8: the consistency hypothesis holds on the concrete
three-shape display and is preserved by a `transform` call on it. -/
theorem C8_draw_never_unwraps_missing_fields_witness :
    displayConsistent
      (transform dC1 (new_shape (ShapeHandle.Opaque 0)) (translate 7 7 7)) :=
  (C8_draw_never_unwraps_missing_fields dC1 (by decide)).2.2.2.2.2.2.1
    (new_shape (ShapeHandle.Opaque 0)) (translate 7 7 7)

/-- C9: `drop_shape` is not idempotent — after a shape's index has been
removed from its order list, a second `drop_shape` on the same handle looks
the index up again, the lookup fails, and the `unwrap` panics. -/
theorem C9_second_drop_panics (d : Display) (x y : Nat)
    (hx : x ∈ d.opaque_ind) (hox : d.opaque_ind.Nodup)
    (hy : y ∈ d.alpha_ind) (hay : d.alpha_ind.Nodup) :
    (∃ d', drop_shape d (new_shape (ShapeHandle.Opaque x)) = Except.ok d' ∧
      drop_shape d' (new_shape (ShapeHandle.Opaque x)) =
        Except.error "unwrap on None") ∧
    (∃ d', drop_shape d (new_shape (ShapeHandle.Alpha y)) = Except.ok d' ∧
      drop_shape d' (new_shape (ShapeHandle.Alpha y)) =
        Except.error "unwrap on None") := by
  constructor
  · have hsome : (d.opaque_ind.findIdx? (fun z => z == x)).isSome := by
      rw [List.findIdx?_isSome, List.any_eq_true]
      exact ⟨x, hx, by simp⟩
    obtain ⟨i, hi⟩ := Option.isSome_iff_exists.mp hsome
    have hnot : x ∉ d.opaque_ind.eraseIdx i :=
      not_mem_eraseIdx_findIdx hox hi
    have hnone :
        (d.opaque_ind.eraseIdx i).findIdx? (fun z => z == x) = none := by
      rw [List.findIdx?_eq_none_iff]
      intro z hz
      exact beq_eq_false_iff_ne.mpr (fun he => hnot (he ▸ hz))
    refine ⟨{ d with opaque_ind := d.opaque_ind.eraseIdx i }, ?_, ?_⟩
    · simp [drop_shape, new_shape, get_shape, expectSome, hi]
    · simp [drop_shape, new_shape, get_shape, expectSome, hnone]
  · have hsome : (d.alpha_ind.findIdx? (fun z => z == y)).isSome := by
      rw [List.findIdx?_isSome, List.any_eq_true]
      exact ⟨y, hy, by simp⟩
    obtain ⟨i, hi⟩ := Option.isSome_iff_exists.mp hsome
    have hnot : y ∉ d.alpha_ind.eraseIdx i :=
      not_mem_eraseIdx_findIdx hay hi
    have hnone :
        (d.alpha_ind.eraseIdx i).findIdx? (fun z => z == y) = none := by
      rw [List.findIdx?_eq_none_iff]
      intro z hz
      exact beq_eq_false_iff_ne.mpr (fun he => hnot (he ▸ hz))
    refine ⟨{ d with alpha_ind := d.alpha_ind.eraseIdx i }, ?_, ?_⟩
    · simp [drop_shape, new_shape, get_shape, expectSome, hi]
    · simp [drop_shape, new_shape, get_shape, expectSome, hnone]

/-- Witness for C9 on a display with one opaque-listed and one
alpha-listed shape. -/
theorem C9_second_drop_panics_witness :
    (∃ d', drop_shape dC5 (new_shape (ShapeHandle.Opaque 0)) =
        Except.ok d' ∧
      drop_shape d' (new_shape (ShapeHandle.Opaque 0)) =
        Except.error "unwrap on None") ∧
    (∃ d', drop_shape dC5 (new_shape (ShapeHandle.Alpha 0)) =
        Except.ok d' ∧
      drop_shape d' (new_shape (ShapeHandle.Alpha 0)) =
        Except.error "unwrap on None") :=
  C9_second_drop_panics dC5 0 0 (by decide) (by decide) (by decide)
    (by decide)

/-- C10: replacing a texture re-uploads into the same GL texture object —
same table entry, same identity, other images untouched — and never writes
the caller's handle, which keeps its creation-time width and height even
when the new dimensions differ. -/
theorem C10_set_texture_keeps_handle (d : Display) (tex : Texture)
    (wh : Nat × Nat) (g : List Nat) (td : TextureData)
    (ht : d.textures[tex.idx]? = some td)
    (hid : td.t < d.context.texImages.length) :
    (set_texture d tex wh g).2 = tex ∧
    (set_texture d tex wh g).2.w = tex.w ∧
    (set_texture d tex wh g).2.h = tex.h ∧
    (set_texture d tex wh g).1.textures = d.textures ∧
    (set_texture d tex wh g).1.context.texImages[td.t]? =
      some ⟨wh.1, wh.2, g⟩ ∧
    (∀ j, j ≠ td.t →
      (set_texture d tex wh g).1.context.texImages[j]? =
        d.context.texImages[j]?) ∧
    (set_texture d tex wh g).1.context.viewport = d.context.viewport ∧
    (set_texture d tex wh g).1.opaque_vec = d.opaque_vec ∧
    (set_texture d tex wh g).1.alpha_vec = d.alpha_vec ∧
    (set_texture d tex wh g).1.gui_vec = d.gui_vec ∧
    (set_texture d tex wh g).1.opaque_ind = d.opaque_ind ∧
    (set_texture d tex wh g).1.alpha_ind = d.alpha_ind ∧
    (set_texture d tex wh g).1.models = d.models ∧
    (set_texture d tex wh g).1.texcoords = d.texcoords ∧
    (set_texture d tex wh g).1.gradients = d.gradients := by
  refine ⟨rfl, rfl, rfl, rfl, ?_, ?_, rfl, rfl, rfl, rfl, rfl, rfl, rfl,
    rfl, rfl⟩
  · simp [set_texture, ht, List.getElem?_set_self hid]
  · intro j hj
    simp [set_texture, ht, List.getElem?_set_ne (Ne.symm hj)]

/-- Witness for C10: replacing the only texture of a concrete display with
a 3x1 image leaves the handle's recorded 2x2 size unchanged while the GL
image takes the new size and pixels. -/
theorem C10_set_texture_keeps_handle_witness :
    (set_texture dW3 ⟨0, 2, 2⟩ (3, 1) [7]).2 = (⟨0, 2, 2⟩ : Texture) ∧
    (set_texture dW3 ⟨0, 2, 2⟩ (3, 1) [7]).1.context.texImages[0]? =
      some ⟨3, 1, [7]⟩ :=
  ⟨(C10_set_texture_keeps_handle dW3 ⟨0, 2, 2⟩ (3, 1) [7] ⟨0⟩ rfl
      (by decide)).1,
   (C10_set_texture_keeps_handle dW3 ⟨0, 2, 2⟩ (3, 1) [7] ⟨0⟩ rfl
      (by decide)).2.2.2.2.1⟩

end Awi
